import Mathlib

/-!
# SuperExpat chat view: `frontend/src/App.jsx`

A shallow embedding of the chat component: the three pieces of React state
(`messages`, `input`, `loading`), the submission handler `handleSendMessage`
(split at its `await`), and the render functions `formatDate`, `EventCard`
and `AssistantMessage`.

Modelling conventions.

* JavaScript strings are Lean strings.  Every character removed by
  `String.prototype.trim` lies in the Basic Multilingual Plane, so trimming by
  code point and by UTF-16 code unit agree.
* Values read from the backend JSON are `JsVal`s: `undefined` (absent key),
  `null`, booleans, numbers and strings.  A finite number is the rational it
  denotes (0 and -0 are not told apart: they are equal under `===`, both falsy
  and both print as "0"); NaN never comes out of `JSON.parse` and is left out.
* `new Date().toISOString()` is an input `now` of the handler.
* The handler reads `input` and `loading` from the closure of the render that
  created it, not from the live state cells: a world keeps both the current
  cells (`state`) and the cells as of the last render (`rendered`), and a
  re-render is an event of its own.
* State setters and `fetch` are recorded as a list of effects in program order.
* Host functions (date, time and number formatting) are fields of `Platform`.
-/

namespace App

/-! ## JavaScript values -/

/-- Scalar JavaScript values; `undefined` stands for an absent property,
`num x` is a finite number and `infinity negative` is Infinity or -Infinity
(what `JSON.parse` returns for a literal beyond the range of a double). -/
inductive JsVal where
  | undefined
  | null
  | bool (b : Bool)
  | num (x : ℚ)
  | infinity (negative : Bool)
  | str (s : String)
  deriving DecidableEq, Repr

/-- ToBoolean: the falsy values are undefined, null, false, 0 and the empty string. -/
def JsVal.truthy : JsVal → Bool
  | .undefined => false
  | .null => false
  | .bool b => b
  | .num x => x != 0
  | .infinity _ => true
  | .str s => s != ""

/-- Strict inequality `a !== b` on scalars. -/
def JsVal.strictNe (a b : JsVal) : Bool := a != b

/-- Strict equality `a === b` on scalars. -/
def JsVal.strictEq (a b : JsVal) : Bool := a == b

/-- Code points stripped by `trim`: ECMAScript WhiteSpace and LineTerminator. -/
def isTrimChar (c : Char) : Bool :=
  let n := c.toNat
  n == 0x09 || n == 0x0A || n == 0x0B || n == 0x0C || n == 0x0D || n == 0x20 ||
  n == 0xA0 || n == 0x1680 || (0x2000 ≤ n && n ≤ 0x200A) ||
  n == 0x2028 || n == 0x2029 || n == 0x202F || n == 0x205F || n == 0x3000 || n == 0xFEFF

/-- `String.prototype.trim`: drop leading and trailing white space. -/
def jsTrim (s : String) : String :=
  ⟨((s.data.dropWhile isTrimChar).reverse.dropWhile isTrimChar).reverse⟩

/-- A thrown JavaScript `Error`, identified by its `message`. -/
structure JsError where
  message : String
  deriving DecidableEq, Repr

/-! ## Data model -/

/-- One record of `data.results`; every property may be absent. -/
structure Item where
  id : JsVal := .undefined
  type : JsVal := .undefined
  title : JsVal := .undefined
  start_date : JsVal := .undefined
  start_time : JsVal := .undefined
  venue : JsVal := .undefined
  address : JsVal := .undefined
  company : JsVal := .undefined
  price : JsVal := .undefined
  poster : JsVal := .undefined
  url : JsVal := .undefined
  deriving DecidableEq, Repr

/-- The parsed response body `{ total_results, results, ai_summary }`;
`results = none` is an absent or null array. -/
structure ResultPayload where
  total_results : JsVal := .undefined
  results : Option (List Item) := none
  ai_summary : JsVal := .undefined
  deriving DecidableEq, Repr

inductive Role where
  | user
  | assistant
  deriving DecidableEq, Repr

/-- An entry of the message log.  `content = none`, `error = false` and
`data = none` stand for keys the object literal does not have (or, for `data`,
a `null` body). -/
structure Message where
  role : Role
  timestamp : String
  content : Option String := none
  error : Bool := false
  data : Option ResultPayload := none
  deriving DecidableEq, Repr

/-- The three `useState` cells of `App` (lines 9-11). -/
structure State where
  messages : List Message
  input : String
  loading : Bool
  deriving DecidableEq, Repr

/-- Initial values of the `useState` cells. -/
def State.init : State := { messages := [], input := "", loading := false }

/-! ## Network -/

/-- Arguments of the `fetch` call; `body` is the object handed to `JSON.stringify`. -/
structure Request where
  url : String
  method : String
  headers : List (String × String)
  body : List (String × JsVal)
  deriving DecidableEq, Repr

/-- What the handler reads of a `Response`; `json` is the outcome of `response.json()`. -/
structure Response where
  status : Nat
  statusText : String
  json : Except JsError (Option ResultPayload)

/-- `response.ok`: the status is in the range 200-299. -/
def Response.ok (r : Response) : Bool := 200 ≤ r.status && r.status ≤ 299

/-- How the promise returned by `fetch` settles. -/
inductive FetchOutcome where
  | rejected (err : JsError)
  | resolved (response : Response)

/-! ## Effects and exceptions -/

/-- Observable actions of the handler. -/
inductive Effect where
  /-- The update `setMessages(prev => [...prev, m])`. -/
  | setMessages (m : Message)
  | setInput (value : String)
  | setLoading (value : Bool)
  | fetch (request : Request)
  | consoleError (err : JsError)
  deriving DecidableEq, Repr

/-- A run of straight-line code: the effects performed, in order, and either a
value or the exception that ended the run. -/
structure Run (α : Type) where
  effects : List Effect
  result : Except JsError α

def Run.pure {α : Type} (a : α) : Run α := ⟨[], .ok a⟩

def Run.throw {α : Type} (e : JsError) : Run α := ⟨[], .error e⟩

def Run.perform (e : Effect) : Run Unit := ⟨[e], .ok ()⟩

/-- Sequencing: an exception in the first part skips the second. -/
def Run.bind {α β : Type} (x : Run α) (f : α → Run β) : Run β :=
  match x.result with
  | .ok a => ⟨x.effects ++ (f a).effects, (f a).result⟩
  | .error e => ⟨x.effects, .error e⟩

instance : Monad Run where
  pure := Run.pure
  bind := Run.bind

/-- The statement `try body catch (err) handler finally fin`: the handler runs
when the body throws, `fin` runs in every case, and an exception thrown by
`fin` replaces the earlier completion. -/
def Run.tryCatchFinally {α : Type} (body : Run α) (handler : JsError → Run α)
    (fin : Run Unit) : Run α :=
  let r : Run α :=
    match body.result with
    | .ok a => ⟨body.effects, .ok a⟩
    | .error e => ⟨body.effects ++ (handler e).effects, (handler e).result⟩
  match fin.result with
  | .ok _ => ⟨r.effects ++ fin.effects, r.result⟩
  | .error e => ⟨r.effects ++ fin.effects, .error e⟩

/-- `await` on the promise returned by `fetch`. -/
def awaitFetch : FetchOutcome → Run Response
  | .rejected err => Run.throw err
  | .resolved r => Run.pure r

/-- `await response.json()`. -/
def awaitJson (r : Response) : Run (Option ResultPayload) :=
  match r.json with
  | .ok d => Run.pure d
  | .error err => Run.throw err

/-! ## `handleSendMessage` (lines 6, 22-75) -/

/-- Line 6: `process.env.REACT_APP_API_URL || 'http://localhost:8000'`. -/
def API_BASE_URL (env : Option String) : String :=
  match env with
  | some u => if u ≠ "" then u else "http://localhost:8000"
  | none => "http://localhost:8000"

/-- Line 23: `queryText || input`; `none` is a call without argument. -/
def finalQuery (queryText : Option String) (input : String) : String :=
  match queryText with
  | some q => if q ≠ "" then q else input
  | none => input

/-- Lines 26-30. -/
def userMessage (q now : String) : Message :=
  { role := .user, content := some q, timestamp := now }

/-- Lines 37-47: the arguments of `fetch`. -/
def chatRequest (env : Option String) (q : String) : Request :=
  { url := API_BASE_URL env ++ "/api/chat"
    method := "POST"
    headers := [("Content-Type", "application/json")]
    body := [("message", .str q), ("page", .num 1), ("page_size", .num 20)] }

/-- Lines 22-47: the synchronous part of the handler, up to and including the
call of `fetch`.  The empty list is the early return of line 24. -/
def handleSendMessage (env : Option String) (now : String) (s : State)
    (queryText : Option String) : List Effect :=
  let q := finalQuery queryText s.input
  if jsTrim q = "" || s.loading then []
  else
    [ .setMessages (userMessage q now),
      .setInput "",
      .setLoading true,
      .fetch (chatRequest env q) ]

/-- Line 50: the error thrown for a response that is not ok. -/
def httpError (r : Response) : JsError :=
  ⟨"HTTP " ++ toString r.status ++ ": " ++ r.statusText⟩

/-- Lines 55-59. -/
def assistantMessage (now : String) (data : Option ResultPayload) : Message :=
  { role := .assistant, timestamp := now, data := data }

/-- Lines 65-70. -/
def errorMessage (now : String) (err : JsError) : Message :=
  { role := .assistant, timestamp := now, error := true,
    content := some ("Connection error: " ++ err.message ++
      ". Please make sure the backend is running.") }

/-- Lines 37-61: the body of `try` from the first `await` on. -/
def handleSendMessage.tryBlock (now : String) (o : FetchOutcome) : Run Unit := do
  let response ← awaitFetch o
  if !response.ok then
    Run.throw (httpError response)
  let data ← awaitJson response
  Run.perform (.setMessages (assistantMessage now data))

/-- Lines 62-71. -/
def handleSendMessage.catchBlock (now : String) (err : JsError) : Run Unit := do
  Run.perform (.consoleError err)
  Run.perform (.setMessages (errorMessage now err))

/-- Lines 72-74. -/
def handleSendMessage.finallyBlock : Run Unit :=
  Run.perform (.setLoading false)

/-- Lines 37-75: the handler from the moment the request settles.  The two
suspension points (`fetch`, `response.json()`) are taken together: nothing is
written between them. -/
def handleSendMessage.resume (now : String) (o : FetchOutcome) : Run Unit :=
  Run.tryCatchFinally (handleSendMessage.tryBlock now o)
    (handleSendMessage.catchBlock now) handleSendMessage.finallyBlock

/-! ## The component as a transition system -/

/-- Effect of one action on the state cells; `fetch` and `console.error` leave them alone. -/
def State.apply (s : State) : Effect → State
  | .setMessages m => { s with messages := s.messages ++ [m] }
  | .setInput v => { s with input := v }
  | .setLoading b => { s with loading := b }
  | .fetch _ => s
  | .consoleError _ => s

/-- Requests issued by a list of effects, in order. -/
def requestsOf : List Effect → List Request
  | [] => []
  | .fetch r :: es => r :: requestsOf es
  | _ :: es => requestsOf es

/-- Messages appended by a list of effects, in order. -/
def messagesOf : List Effect → List Message
  | [] => []
  | .setMessages m :: es => m :: messagesOf es
  | _ :: es => messagesOf es

/-- The component between two events: the current values of the state cells,
the values captured by the closures of the last render (the ones
`handleSendMessage` reads at lines 23-24), and the requests that have not
settled yet. -/
structure World where
  state : State
  rendered : State
  inFlight : List Request
  deriving DecidableEq, Repr

/-- After the first render. -/
def World.init : World := { state := State.init, rendered := State.init, inFlight := [] }

/-- Perform a list of effects: state writes in order, requests join the queue.
Setters write the current cells; `setMessages` is given an updater, so it
appends to the current log. -/
def World.perform (w : World) (es : List Effect) : World :=
  { w with state := es.foldl State.apply w.state, inFlight := w.inFlight ++ requestsOf es }

/-- What can happen to the component. -/
inductive Event where
  /-- React re-renders: new closures capture the current state cells. -/
  | render
  /-- A call `handleSendMessage(queryText)` at time `now`, on the handler of the last render. -/
  | submit (queryText : Option String) (now : String)
  /-- The `onChange` handler of the input field, line 327. -/
  | change (value : String)
  /-- The request at position `i` of those in flight settles at time `now`. -/
  | settle (i : Nat) (o : FetchOutcome) (now : String)

/-- One transition.  A settlement of a request that is not in flight cannot
happen and is ignored. -/
def World.step (env : Option String) (w : World) : Event → World
  | .render => { w with rendered := w.state }
  | .submit queryText now => w.perform (handleSendMessage env now w.rendered queryText)
  | .change value => { w with state := { w.state with input := value } }
  | .settle i o now =>
    if i < w.inFlight.length then
      World.perform { w with inFlight := w.inFlight.eraseIdx i }
        (handleSendMessage.resume now o).effects
    else w

/-- The world after a sequence of events. -/
def World.run (env : Option String) (w : World) (evs : List Event) : World :=
  evs.foldl (World.step env) w

/-- Role expected at position `i` of an alternating log that starts with the user. -/
def roleAt (i : Nat) : Role := if i % 2 = 0 then .user else .assistant

/-- The event is the settlement of a request. -/
def Event.isSettle : Event → Bool
  | .settle _ _ _ => true
  | _ => false

/-- The event is a call of `handleSendMessage`. -/
def Event.isSubmit : Event → Bool
  | .submit _ _ => true
  | _ => false

/-- Every call of `handleSendMessage` in the sequence is made on a render that
shows the current `loading` flag: React has re-rendered since the flag last
changed. -/
def World.loadingCurrent (env : Option String) : World → List Event → Bool
  | _, [] => true
  | w, e :: rest =>
    (!e.isSubmit || w.rendered.loading == w.state.loading) &&
      World.loadingCurrent env (w.step env e) rest

/-- Invariant of the reachable worlds: the roles alternate from the user on,
one request is in flight exactly while `loading` holds, and the log has odd
length exactly while `loading` holds. -/
def World.Consistent (w : World) : Prop :=
  w.state.messages.map Message.role = (List.range w.state.messages.length).map roleAt ∧
  w.inFlight.length = (if w.state.loading then 1 else 0) ∧
  w.state.messages.length % 2 = (if w.state.loading then 1 else 0)

/-! ## Rendering (lines 77-254) -/

/-- A React element tree.  `expr v` is an expression child `{v}`: React prints
strings and numbers and prints nothing for undefined, null and booleans.
`className` is the empty string when the attribute is absent. -/
inductive Node where
  | text (s : String)
  | expr (v : JsVal)
  | elem (tag : String) (className : String) (props : List (String × JsVal))
      (children : List Node)

mutual
/-- Some element of the tree satisfies `p tag className`. -/
def Node.any (p : String → String → Bool) : Node → Bool
  | .text _ => false
  | .expr _ => false
  | .elem tag cls _ cs => p tag cls || Node.anyList p cs
/-- Some element of a forest satisfies `p tag className`. -/
def Node.anyList (p : String → String → Bool) : List Node → Bool
  | [] => false
  | n :: ns => Node.any p n || Node.anyList p ns
end

/-- An element with class `c` occurs in the tree. -/
def Node.hasClass (c : String) (n : Node) : Bool := n.any (fun _ cls => cls == c)

/-- An element with tag `t` occurs in the tree. -/
def Node.hasTag (t : String) (n : Node) : Bool := n.any (fun tag _ => tag == t)

/-- Host functions, not part of the repository.
`numberToString x` is `String(x)` for a finite number;
`toLocaleTimeString ts` is `new Date(ts).toLocaleTimeString('en-US', ...)` of
line 78; `toLocaleDateString d` is lines 87-93 and may throw. -/
structure Platform where
  numberToString : ℚ → String
  toLocaleTimeString : String → String
  toLocaleDateString : JsVal → Except JsError String

/-- Text React prints for an expression child: strings as they are, numbers
as `String` prints them, and nothing for undefined, null and booleans. -/
def JsVal.rendered (pl : Platform) : JsVal → String
  | .str s => s
  | .num x => pl.numberToString x
  | .infinity negative => if negative then "-Infinity" else "Infinity"
  | _ => ""

mutual
/-- The text of a tree, as the DOM property `textContent` gives it. -/
def Node.textContent (pl : Platform) : Node → String
  | .text s => s
  | .expr v => v.rendered pl
  | .elem _ _ _ cs => Node.textContentList pl cs
/-- Concatenated text of a forest. -/
def Node.textContentList (pl : Platform) : List Node → String
  | [] => ""
  | n :: ns => Node.textContent pl n ++ Node.textContentList pl ns
end

/-- The child at position `i` of an element. -/
def Node.child (i : Nat) : Node → Option Node
  | .elem _ _ _ cs => cs.get? i
  | _ => none

/-- Follow child positions from the root. -/
def Node.descend : Node → List Nat → Option Node
  | n, [] => some n
  | n, i :: path =>
    match n.child i with
    | some c => c.descend path
    | none => none

/-- The JSX idiom `{v && element}`: a falsy `v` is itself the child. -/
def jsAnd (v : JsVal) (n : Node) : Node := if v.truthy then n else .expr v

/-- An icon component of `lucide-react` with its `size` prop. -/
def icon (name : String) (size : ℚ) : Node := .elem name "" [("size", .num size)] []

/-- A host on which no date string parses, so that times and dates print as
"Invalid Date" (what ECMAScript prescribes for an invalid date).  It prints
integers of magnitude up to 2^53 in decimal, as `String` does; other numbers
are outside what it models and print as the empty string.  A test double, used
only to evaluate the render functions on concrete input. -/
def Platform.invalidDates : Platform :=
  { numberToString := fun x =>
      if x.den = 1 ∧ x.num.natAbs ≤ 2 ^ 53 then toString x.num else ""
    toLocaleTimeString := fun _ => "Invalid Date"
    toLocaleDateString := fun _ => .ok "Invalid Date" }

/-- Lines 77-82. -/
def formatTimestamp (pl : Platform) (timestamp : String) : String :=
  pl.toLocaleTimeString timestamp

/-- Lines 84-97: null for a falsy argument, the argument itself when formatting throws. -/
def formatDate (pl : Platform) (dateStr : JsVal) : JsVal :=
  if !dateStr.truthy then .null
  else
    match pl.toLocaleDateString dateStr with
    | .ok s => .str s
    | .error _ => dateStr

/-- Line 102: the text shown for an item without start date. -/
def dateSentinel : String := "Date To Be Announced"

/-- Lines 100-102. -/
def EventCard.displayDate (pl : Platform) (event : Item) : JsVal :=
  if event.start_date.truthy then formatDate pl event.start_date else .str dateSentinel

/-- Line 104. -/
def EventCard.isDateUnknown (event : Item) : Bool := !event.start_date.truthy

/-- Lines 109-121: the poster, or the placeholder icon. -/
def EventCard.poster (imageError : Bool) (event : Item) : Node :=
  .elem "div" "event-poster" []
    [ if event.poster.truthy && !imageError then
        .elem "img" "" [("src", event.poster), ("alt", event.title)] []
      else
        .elem "div" "no-image-placeholder" []
          [ if event.type.strictEq (.str "job") then icon "Briefcase" 48
            else icon "Calendar" 48 ] ]

/-- Lines 131-136: the date line. -/
def EventCard.dateDetail (pl : Platform) (event : Item) : Node :=
  .elem "div" "event-detail" []
    [ icon "Calendar" 16,
      .elem "span" (if EventCard.isDateUnknown event then "date-tba" else "") []
        [.expr (EventCard.displayDate pl event)] ]

/-- Lines 138-143: the time line, `event.start_time && !isDateUnknown && (...)`. -/
def EventCard.timeDetail (event : Item) : Node :=
  jsAnd event.start_time
    (jsAnd (.bool (!EventCard.isDateUnknown event))
      (.elem "div" "event-detail" []
        [icon "Clock" 16, .elem "span" "" [] [.expr event.start_time]]))

/-- Lines 130-172. -/
def EventCard.details (pl : Platform) (event : Item) : Node :=
  .elem "div" "event-details" []
    [ EventCard.dateDetail pl event,
      EventCard.timeDetail event,
      jsAnd event.venue
        (.elem "div" "event-detail" []
          [icon "MapPin" 16, .elem "span" "" [] [.expr event.venue]]),
      jsAnd event.company
        (.elem "div" "event-detail" []
          [icon "Briefcase" 16, .elem "span" "" [] [.expr event.company]]),
      jsAnd event.address
        (jsAnd (.bool (!event.venue.truthy))
          (.elem "div" "event-detail" []
            [icon "MapPin" 16, .elem "span" "event-address" [] [.expr event.address]])),
      jsAnd event.price
        (.elem "div" "event-detail" []
          [icon "DollarSign" 16, .elem "span" "" [] [.expr event.price]]) ]

/-- Lines 174-185. -/
def EventCard.footer (event : Item) : Node :=
  .elem "div" "event-footer" []
    [ jsAnd event.url
        (.elem "a" "event-link"
          [("href", event.url), ("target", .str "_blank"), ("rel", .str "noopener noreferrer")]
          [.text "View Details ", icon "ExternalLink" 14]) ]

/-- Lines 99-189; `imageError` is the state cell of line 105. -/
def EventCard (pl : Platform) (imageError : Bool) (event : Item) : Node :=
  .elem "div" "event-card" []
    [ EventCard.poster imageError event,
      .elem "div" "event-content" []
        [ .elem "span" "event-type-badge" []
            [.expr (.str (if event.type.strictEq (.str "job") then "💼 Job" else "🎉 Event"))],
          .elem "h4" "event-title" [] [.expr event.title],
          EventCard.details pl event,
          EventCard.footer event ] ]

/-- Lines 196-199 and 215-218. -/
def AssistantMessage.header (pl : Platform) (message : Message) : Node :=
  .elem "div" "message-header" []
    [ .elem "span" "message-role" [] [.text "AI Assistant"],
      .elem "span" "message-time" [] [.expr (.str (formatTimestamp pl message.timestamp))] ]

/-- Lines 221-229: `ai_summary && (...)`. -/
def AssistantMessage.summaryBox (ai_summary : JsVal) : Node :=
  jsAnd ai_summary
    (.elem "div" "ai-summary-box" []
      [ .elem "div" "ai-summary-header" []
          [icon "Sparkles" 16, .elem "span" "" [] [.text "AI Summary"]],
        .elem "p" "ai-summary-text" [] [.expr ai_summary] ])

/-- Lines 233-235: the paragraph of the count sentence. -/
def AssistantMessage.countSentence (total_results : JsVal) : Node :=
  .elem "p" "" []
    [ .text "I found ",
      .elem "strong" "" [] [.expr total_results],
      .text " result",
      .expr (.str (if total_results.strictNe (.num 1) then "s" else "")),
      .text " for you" ]

/-- Lines 231-237: `!ai_summary && (...)`. -/
def AssistantMessage.countBox (ai_summary total_results : JsVal) : Node :=
  jsAnd (.bool (!ai_summary.truthy))
    (.elem "div" "response-summary" [] [AssistantMessage.countSentence total_results])

/-- Line 242: `event.id || idx`. -/
def cardKey (event : Item) (idx : Nat) : JsVal :=
  if event.id.truthy then event.id else .num idx

/-- Lines 241-243: the cards, each wrapped in its component element with its key. -/
def AssistantMessage.cards (pl : Platform) (imageError : Nat → Bool) :
    Nat → List Item → List Node
  | _, [] => []
  | idx, event :: rest =>
    .elem "EventCard" "" [("key", cardKey event idx)] [EventCard pl (imageError idx) event]
      :: AssistantMessage.cards pl imageError (idx + 1) rest

/-- Lines 239-250: `results && results.length > 0 ? grid : no-results`
(the `opacity` prop of the icon is left out). -/
def AssistantMessage.resultsBox (pl : Platform) (imageError : Nat → Bool)
    (results : Option (List Item)) : Node :=
  match results with
  | some (event :: rest) =>
    .elem "div" "events-grid" [] (AssistantMessage.cards pl imageError 0 (event :: rest))
  | _ =>
    .elem "div" "no-results" []
      [ icon "MessageSquare" 32,
        .elem "p" "" [] [.text "No results found. Try a different search."] ]

/-- Lines 191-254; `none` is the `return null` of line 207.  `imageError i` is
the image-error cell of the card at position `i`. -/
def AssistantMessage (pl : Platform) (imageError : Nat → Bool) (message : Message) :
    Option Node :=
  if message.error then
    some (.elem "div" "message assistant" []
      [ .elem "div" "message-content" []
          [ AssistantMessage.header pl message,
            .elem "p" "message-text error-text" []
              [.expr (match message.content with
                      | some c => .str c
                      | none => .undefined)] ] ])
  else
    match message.data with
    | none => none
    | some data =>
      some (.elem "div" "message assistant" []
        [ .elem "div" "message-content assistant-response" []
            [ AssistantMessage.header pl message,
              AssistantMessage.summaryBox data.ai_summary,
              AssistantMessage.countBox data.ai_summary data.total_results,
              AssistantMessage.resultsBox pl imageError data.results ] ])

/-! ## Basic facts about the handler -/

theorem jsTrim_empty : jsTrim "" = "" := by decide

theorem ne_empty_of_jsTrim_ne {q : String} (h : jsTrim q ≠ "") : q ≠ "" := by
  intro hq
  exact h (hq ▸ jsTrim_empty)

theorem handleSendMessage_accepted (env : Option String) (now : String) (s : State)
    (queryText : Option String) (hidle : s.loading = false)
    (hq : jsTrim (finalQuery queryText s.input) ≠ "") :
    handleSendMessage env now s queryText =
      [ .setMessages (userMessage (finalQuery queryText s.input) now),
        .setInput "", .setLoading true,
        .fetch (chatRequest env (finalQuery queryText s.input)) ] := by
  simp [handleSendMessage, hidle, hq]

theorem handleSendMessage_rejected (env : Option String) (now : String) (s : State)
    (queryText : Option String)
    (h : jsTrim (finalQuery queryText s.input) = "" ∨ s.loading = true) :
    handleSendMessage env now s queryText = [] := by
  simp only [handleSendMessage]
  rcases h with h | h <;> simp [h]

/-- The continuation either appends the parsed body or logs the error and
appends the error message; in both cases it ends by clearing `loading`. -/
theorem resume_cases (now : String) (o : FetchOutcome) :
    (∃ d, handleSendMessage.resume now o =
        ⟨[.setMessages (assistantMessage now d), .setLoading false], .ok ()⟩) ∨
    (∃ e, handleSendMessage.resume now o =
        ⟨[.consoleError e, .setMessages (errorMessage now e), .setLoading false], .ok ()⟩) := by
  cases o with
  | rejected err =>
    right
    exact ⟨err, rfl⟩
  | resolved r =>
    by_cases hok : r.ok = true
    · cases hj : r.json with
      | ok d =>
        left
        refine ⟨d, ?_⟩
        simp [handleSendMessage.resume, handleSendMessage.tryBlock, Run.tryCatchFinally,
          handleSendMessage.finallyBlock, handleSendMessage.catchBlock, awaitFetch, awaitJson,
          Run.perform, Run.pure, Run.throw, Run.bind, bind, pure, hok, hj]
      | error e =>
        right
        refine ⟨e, ?_⟩
        simp [handleSendMessage.resume, handleSendMessage.tryBlock, Run.tryCatchFinally,
          handleSendMessage.finallyBlock, handleSendMessage.catchBlock, awaitFetch, awaitJson,
          Run.perform, Run.pure, Run.throw, Run.bind, bind, pure, hok, hj]
    · right
      refine ⟨httpError r, ?_⟩
      simp [handleSendMessage.resume, handleSendMessage.tryBlock, Run.tryCatchFinally,
        handleSendMessage.finallyBlock, handleSendMessage.catchBlock, awaitFetch, awaitJson,
        Run.perform, Run.pure, Run.throw, Run.bind, bind, pure, hok]

/-! ## Transitions -/

theorem World.perform_nil (w : World) : w.perform [] = w := by
  cases w
  simp [World.perform, requestsOf]

theorem step_submit_accepted (env : Option String) (w : World) (queryText : Option String)
    (now : String) (hidle : w.rendered.loading = false)
    (hq : jsTrim (finalQuery queryText w.rendered.input) ≠ "") :
    w.step env (.submit queryText now) =
      { state := { messages := w.state.messages ++
                     [userMessage (finalQuery queryText w.rendered.input) now],
                   input := "", loading := true },
        rendered := w.rendered,
        inFlight := w.inFlight ++ [chatRequest env (finalQuery queryText w.rendered.input)] } := by
  simp [World.step, handleSendMessage_accepted env now w.rendered queryText hidle hq,
    World.perform, State.apply, requestsOf]

theorem step_submit_rejected (env : Option String) (w : World) (queryText : Option String)
    (now : String)
    (h : jsTrim (finalQuery queryText w.rendered.input) = "" ∨ w.rendered.loading = true) :
    w.step env (.submit queryText now) = w := by
  simp [World.step, handleSendMessage_rejected env now w.rendered queryText h,
    World.perform_nil]

theorem step_settle (env : Option String) (w : World) (i : Nat) (o : FetchOutcome)
    (now : String) (hi : i < w.inFlight.length) :
    ∃ a : Message, a.role = .assistant ∧ a.timestamp = now ∧
      w.step env (.settle i o now) =
        { state := { messages := w.state.messages ++ [a], input := w.state.input,
                     loading := false },
          rendered := w.rendered,
          inFlight := w.inFlight.eraseIdx i } := by
  rcases resume_cases now o with ⟨d, hd⟩ | ⟨e, he⟩
  · exact ⟨assistantMessage now d, rfl, rfl, by
      simp [World.step, hi, hd, World.perform, State.apply, requestsOf]⟩
  · exact ⟨errorMessage now e, rfl, rfl, by
      simp [World.step, hi, he, World.perform, State.apply, requestsOf]⟩

theorem step_busy_nonsettle (env : Option String) (w : World) (e : Event)
    (hbusy : w.state.loading = true) (he : e.isSettle = false)
    (hcur : e.isSubmit = true → w.rendered.loading = w.state.loading) :
    (w.step env e).state.messages = w.state.messages ∧
    (w.step env e).state.loading = true ∧
    (w.step env e).inFlight = w.inFlight := by
  cases e with
  | render => exact ⟨rfl, hbusy, rfl⟩
  | submit qt now =>
    rw [step_submit_rejected env w qt now (Or.inr ((hcur rfl).trans hbusy))]
    exact ⟨rfl, hbusy, rfl⟩
  | change v => exact ⟨rfl, hbusy, rfl⟩
  | settle i o now => simp [Event.isSettle] at he

theorem loadingCurrent_cons (env : Option String) (w : World) (e : Event)
    (rest : List Event) (h : World.loadingCurrent env w (e :: rest) = true) :
    (e.isSubmit = true → w.rendered.loading = w.state.loading) ∧
    World.loadingCurrent env (w.step env e) rest = true := by
  simp only [World.loadingCurrent, Bool.and_eq_true, Bool.or_eq_true, Bool.not_eq_true',
    beq_iff_eq] at h
  refine ⟨fun hs => ?_, h.2⟩
  rcases h.1 with h1 | h1
  · rw [hs] at h1
    exact absurd h1 (by decide)
  · exact h1

theorem run_busy_nonsettle (env : Option String) (mid : List Event) :
    ∀ w : World, w.state.loading = true → (∀ e ∈ mid, e.isSettle = false) →
      World.loadingCurrent env w mid = true →
      (w.run env mid).state.messages = w.state.messages ∧
      (w.run env mid).state.loading = true ∧
      (w.run env mid).inFlight = w.inFlight := by
  induction mid with
  | nil => intro w hbusy _ _; exact ⟨rfl, hbusy, rfl⟩
  | cons e rest ih =>
    intro w hbusy hmid hcur
    obtain ⟨hc1, hc2⟩ := loadingCurrent_cons env w e rest hcur
    have h1 := step_busy_nonsettle env w e hbusy (hmid e (List.mem_cons_self _ _)) hc1
    have h2 := ih (w.step env e) h1.2.1 (fun x hx => hmid x (List.mem_cons_of_mem _ hx)) hc2
    simp only [World.run, List.foldl_cons] at h2 ⊢
    exact ⟨h2.1.trans h1.1, h2.2.1, h2.2.2.trans h1.2.2⟩

theorem roleAt_even {n : Nat} (h : n % 2 = 0) : roleAt n = .user := by
  simp [roleAt, h]

theorem roleAt_odd {n : Nat} (h : n % 2 = 1) : roleAt n = .assistant := by
  simp [roleAt, h]

theorem consistent_init : World.init.Consistent := by
  simp [World.Consistent, World.init, State.init]

theorem consistent_step (env : Option String) (w : World) (e : Event)
    (hw : w.Consistent)
    (hcur : e.isSubmit = true → w.rendered.loading = w.state.loading) :
    (w.step env e).Consistent := by
  obtain ⟨hroles, hfl, hpar⟩ := hw
  cases e with
  | render => exact ⟨hroles, hfl, hpar⟩
  | change v => exact ⟨hroles, hfl, hpar⟩
  | submit qt now =>
    by_cases hrej : jsTrim (finalQuery qt w.rendered.input) = "" ∨ w.rendered.loading = true
    · rw [step_submit_rejected env w qt now hrej]
      exact ⟨hroles, hfl, hpar⟩
    · have hidle : w.rendered.loading = false := by
        cases h : w.rendered.loading
        · rfl
        · exact absurd (Or.inr h) hrej
      have hidle2 : w.state.loading = false := (hcur rfl).symm.trans hidle
      have hq : jsTrim (finalQuery qt w.rendered.input) ≠ "" := fun h => hrej (Or.inl h)
      rw [step_submit_accepted env w qt now hidle hq]
      have hpar0 : w.state.messages.length % 2 = 0 := by simpa [hidle2] using hpar
      have hnil : w.inFlight = [] := List.length_eq_zero.mp (by simpa [hidle2] using hfl)
      refine ⟨?_, ?_, ?_⟩
      · simp [List.range_succ, hroles, userMessage, roleAt_even hpar0]
      · simp [hnil]
      · simp only [List.length_append, List.length_singleton, if_true]
        omega
  | settle i o now =>
    by_cases hi : i < w.inFlight.length
    · obtain ⟨a, harole, -, hstep⟩ := step_settle env w i o now hi
      rw [hstep]
      have hbusy : w.state.loading = true := by
        cases h : w.state.loading
        · simp [h] at hfl
          simp [hfl] at hi
        · rfl
      have hpar1 : w.state.messages.length % 2 = 1 := by simpa [hbusy] using hpar
      have hlen : w.inFlight.length = 1 := by simpa [hbusy] using hfl
      refine ⟨?_, ?_, ?_⟩
      · simp [List.range_succ, hroles, harole, roleAt_odd hpar1]
      · have hi0 : i = 0 := by omega
        simp [List.length_eraseIdx, hi, hlen, hi0]
      · simp only [List.length_append, List.length_singleton, Bool.false_eq_true, if_false]
        omega
    · have : w.step env (.settle i o now) = w := by simp [World.step, hi]
      rw [this]
      exact ⟨hroles, hfl, hpar⟩

theorem consistent_run (env : Option String) (evs : List Event) :
    ∀ w : World, w.Consistent → World.loadingCurrent env w evs = true →
      (w.run env evs).Consistent := by
  induction evs with
  | nil => intro w hw _; exact hw
  | cons e rest ih =>
    intro w hw hcur
    obtain ⟨hc1, hc2⟩ := loadingCurrent_cons env w e rest hcur
    exact ih (w.step env e) (consistent_step env w e hw hc1) hc2

/-! ## The submission contract -/

/-- C1: when the handler sees `loading = false` and the submitted text q has a
non-empty trimmed form, whether q is the argument of the call or, for a call
without argument (Enter, Send) or with an empty one, the text of the input
field, the call appends exactly the message with role user and content q at the
end of the log at once (the earlier messages stay as they are), and when its
request settles, with any outcome, exactly one assistant message is appended
after it, so that the log is 2 longer than before the turn.  Between the two,
re-renders, input changes and calls made on an up-to-date render do not touch
the log. -/
theorem handleSendMessage_turn_grows_log_by_two (env : Option String) (w : World)
    (queryText : Option String) (q now now2 : String) (mid : List Event) (o : FetchOutcome)
    (hidle : w.rendered.loading = false)
    (htext : queryText = some q ∨
      ((queryText = none ∨ queryText = some "") ∧ w.rendered.input = q))
    (hq : jsTrim q ≠ "")
    (hmid : ∀ e ∈ mid, e.isSettle = false)
    (hcur : World.loadingCurrent env (w.step env (.submit queryText now)) mid = true) :
    (w.step env (.submit queryText now)).state.messages =
      w.state.messages ++ [{ role := .user, content := some q, timestamp := now }] ∧
    ∃ a : Message, a.role = .assistant ∧
      ((((w.step env (.submit queryText now)).run env mid).step env
          (.settle w.inFlight.length o now2)).state.messages =
        w.state.messages ++ [{ role := .user, content := some q, timestamp := now }, a]) ∧
      (((w.step env (.submit queryText now)).run env mid).step env
          (.settle w.inFlight.length o now2)).state.messages.length =
        w.state.messages.length + 2 := by
  have hfq : finalQuery queryText w.rendered.input = q := by
    rcases htext with h | ⟨h | h, hin⟩
    · subst h
      simp [finalQuery, ne_empty_of_jsTrim_ne hq]
    · subst h
      simpa [finalQuery] using hin
    · subst h
      simpa [finalQuery] using hin
  have hsub := step_submit_accepted env w queryText now hidle (by rw [hfq]; exact hq)
  rw [hfq] at hsub
  have h1 : (w.step env (.submit queryText now)).state.messages =
      w.state.messages ++ [userMessage q now] := by rw [hsub]
  have hbusy : (w.step env (.submit queryText now)).state.loading = true := by rw [hsub]
  have hfl : (w.step env (.submit queryText now)).inFlight =
      w.inFlight ++ [chatRequest env q] := by rw [hsub]
  obtain ⟨hm, -, hf⟩ := run_busy_nonsettle env mid _ hbusy hmid hcur
  have hi : w.inFlight.length <
      ((w.step env (.submit queryText now)).run env mid).inFlight.length := by
    rw [hf, hfl]
    simp
  obtain ⟨a, harole, -, hstep⟩ := step_settle env _ w.inFlight.length o now2 hi
  refine ⟨h1, a, harole, ?_, ?_⟩
  · rw [hstep]
    simp [hm, h1, userMessage]
  · rw [hstep]
    simp [hm, h1]

theorem handleSendMessage_turn_grows_log_by_two_witness :
    ((World.step none ⟨⟨[], " jobs in Berlin ", false⟩, ⟨[], " jobs in Berlin ", false⟩, []⟩
        (.submit none "t0")).state.messages =
      [] ++ [{ role := .user, content := some " jobs in Berlin ", timestamp := "t0" }] ∧
    ∃ a : Message, a.role = .assistant ∧
      ((((World.step none
            ⟨⟨[], " jobs in Berlin ", false⟩, ⟨[], " jobs in Berlin ", false⟩, []⟩
            (.submit none "t0")).run none
          [.render, .change "again", .submit none "t1"]).step none
          (.settle 0 (.rejected ⟨"Failed to fetch"⟩) "t2")).state.messages =
        [] ++ [{ role := .user, content := some " jobs in Berlin ", timestamp := "t0" }, a]) ∧
      (((World.step none
            ⟨⟨[], " jobs in Berlin ", false⟩, ⟨[], " jobs in Berlin ", false⟩, []⟩
            (.submit none "t0")).run none
          [.render, .change "again", .submit none "t1"]).step none
          (.settle 0 (.rejected ⟨"Failed to fetch"⟩) "t2")).state.messages.length = 0 + 2) ∧
    ((World.init.step none (.submit (some "events in London") "t0")).state.messages =
      [] ++ [{ role := .user, content := some "events in London", timestamp := "t0" }] ∧
    ∃ a : Message, a.role = .assistant ∧
      ((((World.init.step none (.submit (some "events in London") "t0")).run none
          []).step none
          (.settle 0 (.resolved ⟨200, "OK", .ok none⟩) "t2")).state.messages =
        [] ++ [{ role := .user, content := some "events in London", timestamp := "t0" }, a]) ∧
      (((World.init.step none (.submit (some "events in London") "t0")).run none
          []).step none
          (.settle 0 (.resolved ⟨200, "OK", .ok none⟩) "t2")).state.messages.length = 0 + 2) :=
  ⟨handleSendMessage_turn_grows_log_by_two none
      ⟨⟨[], " jobs in Berlin ", false⟩, ⟨[], " jobs in Berlin ", false⟩, []⟩
      none " jobs in Berlin " "t0" "t2" [.render, .change "again", .submit none "t1"]
      (.rejected ⟨"Failed to fetch"⟩) rfl (Or.inr ⟨Or.inl rfl, rfl⟩) (by decide)
      (by simp [Event.isSettle]) (by decide),
   handleSendMessage_turn_grows_log_by_two none World.init
      (some "events in London") "events in London" "t0" "t2" []
      (.resolved ⟨200, "OK", .ok none⟩) rfl (Or.inl rfl) (by decide)
      (by simp) rfl⟩

/-- C2: when the handler sees `loading = true`, a call of `handleSendMessage`
with any argument performs no effect at all: no state setter is called, so the
log, the input field and the loading flag keep their values, and no request is
issued. -/
theorem handleSendMessage_noop_while_loading (env : Option String) (now : String)
    (s : State) (queryText : Option String) (hbusy : s.loading = true) :
    handleSendMessage env now s queryText = [] ∧
    ∀ (current : State) (inFlight : List Request),
      World.step env ⟨current, s, inFlight⟩ (.submit queryText now) =
        ⟨current, s, inFlight⟩ := by
  refine ⟨handleSendMessage_rejected env now s queryText (Or.inr hbusy), ?_⟩
  intro current inFlight
  exact step_submit_rejected env ⟨current, s, inFlight⟩ queryText now (Or.inr hbusy)

theorem handleSendMessage_noop_while_loading_witness :
    handleSendMessage none "t1"
        ⟨[{ role := .user, content := some "hi", timestamp := "t0" }], "typed", true⟩
        (some "jobs in Berlin") = [] ∧
    ∀ (current : State) (inFlight : List Request),
      World.step none
        ⟨current, ⟨[{ role := .user, content := some "hi", timestamp := "t0" }], "typed", true⟩,
          inFlight⟩
        (.submit (some "jobs in Berlin") "t1") =
      ⟨current, ⟨[{ role := .user, content := some "hi", timestamp := "t0" }], "typed", true⟩,
        inFlight⟩ :=
  handleSendMessage_noop_while_loading none "t1"
    ⟨[{ role := .user, content := some "hi", timestamp := "t0" }], "typed", true⟩
    (some "jobs in Berlin") rfl

/-- C3, as stated, fails: with "hello" in the input field and `loading = false`,
the call `handleSendMessage("")` falls back to the input field (line 23) and
appends a user message. -/
theorem empty_argument_submits_input_field :
    (World.step none ⟨⟨[], "hello", false⟩, ⟨[], "hello", false⟩, []⟩
        (.submit (some "") "t0")).state.messages =
      [{ role := .user, content := some "hello", timestamp := "t0" }] ∧
    (World.step none ⟨⟨[], "hello", false⟩, ⟨[], "hello", false⟩, []⟩
        (.submit (some "") "t0")).state.messages ≠
      (⟨⟨[], "hello", false⟩, ⟨[], "hello", false⟩, []⟩ : World).state.messages := by
  decide

/-- C3, amended: in every state, `handleSendMessage` leaves the message log
(and the rest of the state) unchanged when its argument is a non-empty string
of white space only, and also when the argument is the empty string or missing
and the input field, as the handler sees it, is empty or white space only.  An
empty argument does not by itself stop the submission: line 23 then takes the
text of the input field. -/
theorem blank_query_leaves_log_unchanged (env : Option String) (w : World)
    (queryText : Option String) (now : String)
    (hblank : (∃ q : String, queryText = some q ∧ q ≠ "" ∧ jsTrim q = "") ∨
      ((queryText = some "" ∨ queryText = none) ∧ jsTrim w.rendered.input = "")) :
    w.step env (.submit queryText now) = w ∧
    (w.step env (.submit queryText now)).state.messages = w.state.messages := by
  have hfq : jsTrim (finalQuery queryText w.rendered.input) = "" := by
    rcases hblank with ⟨q, hq, hne, ht⟩ | ⟨h | h, ht⟩
    · subst hq
      simpa [finalQuery, hne] using ht
    · subst h
      simpa [finalQuery] using ht
    · subst h
      simpa [finalQuery] using ht
  have hstep := step_submit_rejected env w queryText now (Or.inl hfq)
  exact ⟨hstep, by rw [hstep]⟩

theorem blank_query_leaves_log_unchanged_witness :
    World.step none ⟨⟨[], "hello", false⟩, ⟨[], "hello", false⟩, []⟩
        (.submit (some " \t ") "t0") =
      ⟨⟨[], "hello", false⟩, ⟨[], "hello", false⟩, []⟩ ∧
    (World.step none ⟨⟨[], "hello", false⟩, ⟨[], "hello", false⟩, []⟩
        (.submit (some " \t ") "t0")).state.messages =
      (⟨⟨[], "hello", false⟩, ⟨[], "hello", false⟩, []⟩ : World).state.messages :=
  blank_query_leaves_log_unchanged none ⟨⟨[], "hello", false⟩, ⟨[], "hello", false⟩, []⟩
    (some " \t ") "t0" (Or.inl ⟨" \t ", rfl, by decide, by decide⟩)

/-- C4: for an accepted submission (the handler sees `loading = false` and the
submitted text q, given as argument or taken from the input field by a call
without argument or with an empty one, has a non-empty trimmed form) the
handler appends the user message, sets the input field to the empty string and
`loading` to true, and only then issues the request; whatever the outcome of
the request (success, status outside 200-299, rejection, or a body that does
not parse), the rest of the handler completes without an exception and leaves
`loading = false`. -/
theorem accepted_submission_sets_and_releases_loading (env : Option String)
    (now : String) (s : State) (queryText : Option String) (q : String)
    (hidle : s.loading = false)
    (htext : queryText = some q ∨ ((queryText = none ∨ queryText = some "") ∧ s.input = q))
    (hq : jsTrim q ≠ "") :
    handleSendMessage env now s queryText =
      [ .setMessages { role := .user, content := some q, timestamp := now },
        .setInput "", .setLoading true, .fetch (chatRequest env q) ] ∧
    (∀ current : State,
      ((handleSendMessage env now s queryText).foldl State.apply current).loading = true ∧
      ((handleSendMessage env now s queryText).foldl State.apply current).input = "") ∧
    ∀ (now2 : String) (o : FetchOutcome) (s2 : State),
      (handleSendMessage.resume now2 o).result = .ok () ∧
      ((handleSendMessage.resume now2 o).effects.foldl State.apply s2).loading = false := by
  have hfq : finalQuery queryText s.input = q := by
    rcases htext with h | ⟨h | h, hin⟩
    · subst h
      simp [finalQuery, ne_empty_of_jsTrim_ne hq]
    · subst h
      simpa [finalQuery] using hin
    · subst h
      simpa [finalQuery] using hin
  have hacc := handleSendMessage_accepted env now s queryText hidle (by rw [hfq]; exact hq)
  rw [hfq] at hacc
  refine ⟨by rw [hacc]; rfl, ?_, ?_⟩
  · intro current
    rw [hacc]
    exact ⟨rfl, rfl⟩
  · intro now2 o s2
    rcases resume_cases now2 o with ⟨d, hd⟩ | ⟨e, he⟩
    · rw [hd]
      exact ⟨rfl, rfl⟩
    · rw [he]
      exact ⟨rfl, rfl⟩

theorem accepted_submission_sets_and_releases_loading_witness :
    (handleSendMessage none "t0" ⟨[], " jobs in Berlin ", false⟩ none =
      [ .setMessages { role := .user, content := some " jobs in Berlin ", timestamp := "t0" },
        .setInput "", .setLoading true, .fetch (chatRequest none " jobs in Berlin ") ] ∧
    (∀ current : State,
      ((handleSendMessage none "t0" ⟨[], " jobs in Berlin ", false⟩ none).foldl
        State.apply current).loading = true ∧
      ((handleSendMessage none "t0" ⟨[], " jobs in Berlin ", false⟩ none).foldl
        State.apply current).input = "") ∧
    ∀ (now2 : String) (o : FetchOutcome) (s2 : State),
      (handleSendMessage.resume now2 o).result = .ok () ∧
      ((handleSendMessage.resume now2 o).effects.foldl State.apply s2).loading = false) ∧
    (handleSendMessage none "t0" ⟨[], "typed", false⟩ (some "events in London") =
      [ .setMessages { role := .user, content := some "events in London", timestamp := "t0" },
        .setInput "", .setLoading true, .fetch (chatRequest none "events in London") ] ∧
    (∀ current : State,
      ((handleSendMessage none "t0" ⟨[], "typed", false⟩ (some "events in London")).foldl
        State.apply current).loading = true ∧
      ((handleSendMessage none "t0" ⟨[], "typed", false⟩ (some "events in London")).foldl
        State.apply current).input = "") ∧
    ∀ (now2 : String) (o : FetchOutcome) (s2 : State),
      (handleSendMessage.resume now2 o).result = .ok () ∧
      ((handleSendMessage.resume now2 o).effects.foldl State.apply s2).loading = false) :=
  ⟨accepted_submission_sets_and_releases_loading none "t0" ⟨[], " jobs in Berlin ", false⟩
      none " jobs in Berlin " rfl (Or.inr ⟨Or.inl rfl, rfl⟩) (by decide),
   accepted_submission_sets_and_releases_loading none "t0" ⟨[], "typed", false⟩
      (some "events in London") "events in London" rfl (Or.inl rfl) (by decide)⟩

/-- C5: when the request fails, the one message the handler appends is an
assistant message with `error = true`, without data, whose content is
"Connection error: " ++ reason ++ ". Please make sure the backend is running.",
where the reason is "HTTP s: t" for a response with status s outside 200-299
and status text t, and the message of the error for a rejected `fetch` or a
body that does not parse. -/
theorem failed_request_appends_error_message (now : String) (o : FetchOutcome)
    (reason : String)
    (hfail : o = .rejected ⟨reason⟩ ∨
      (∃ r : Response, o = .resolved r ∧ r.ok = false ∧
        reason = "HTTP " ++ toString r.status ++ ": " ++ r.statusText) ∨
      (∃ r : Response, o = .resolved r ∧ r.ok = true ∧ r.json = .error ⟨reason⟩)) :
    messagesOf (handleSendMessage.resume now o).effects =
      [ { role := .assistant, timestamp := now, error := true, data := none,
          content := some ("Connection error: " ++ reason ++
            ". Please make sure the backend is running.") } ] := by
  rcases hfail with h | ⟨r, h, hok, hr⟩ | ⟨r, h, hok, hj⟩
  · subst h
    rfl
  · subst h
    subst hr
    simp [handleSendMessage.resume, handleSendMessage.tryBlock, Run.tryCatchFinally,
      handleSendMessage.finallyBlock, handleSendMessage.catchBlock, awaitFetch, awaitJson,
      Run.perform, Run.pure, Run.throw, Run.bind, bind, pure, hok, messagesOf, errorMessage,
      httpError]
  · subst h
    simp [handleSendMessage.resume, handleSendMessage.tryBlock, Run.tryCatchFinally,
      handleSendMessage.finallyBlock, handleSendMessage.catchBlock, awaitFetch, awaitJson,
      Run.perform, Run.pure, Run.throw, Run.bind, bind, pure, hok, hj, messagesOf, errorMessage]

theorem failed_request_appends_error_message_witness :
    messagesOf (handleSendMessage.resume "t1"
        (.resolved ⟨500, "Internal Server Error", .ok none⟩)).effects =
      [ { role := .assistant, timestamp := "t1", error := true, data := none,
          content := some ("Connection error: " ++ "HTTP 500: Internal Server Error" ++
            ". Please make sure the backend is running.") } ] :=
  failed_request_appends_error_message "t1"
    (.resolved ⟨500, "Internal Server Error", .ok none⟩) "HTTP 500: Internal Server Error"
    (Or.inr (Or.inl ⟨⟨500, "Internal Server Error", .ok none⟩, rfl, by decide, by decide⟩))

/-- C6: an accepted submission of text q (the argument of the call, or the
text of the input field for a call without argument or with an empty one)
issues exactly one request, a POST to API_BASE_URL ++ "/api/chat" with header
Content-Type: application/json and a body with message = q as submitted (not
trimmed), page = 1 and page_size = 20; the rest of the handler issues none; and
the one user message appended has the same q as content. -/
theorem accepted_submission_issues_one_chat_request (env : Option String)
    (now : String) (s : State) (queryText : Option String) (q : String)
    (hidle : s.loading = false)
    (htext : queryText = some q ∨ ((queryText = none ∨ queryText = some "") ∧ s.input = q))
    (hq : jsTrim q ≠ "") :
    requestsOf (handleSendMessage env now s queryText) =
      [ { url := API_BASE_URL env ++ "/api/chat",
          method := "POST",
          headers := [("Content-Type", "application/json")],
          body := [("message", .str q), ("page", .num 1), ("page_size", .num 20)] } ] ∧
    (∀ (now2 : String) (o : FetchOutcome),
      requestsOf (handleSendMessage.resume now2 o).effects = []) ∧
    messagesOf (handleSendMessage env now s queryText) =
      [ { role := .user, content := some q, timestamp := now } ] := by
  have hfq : finalQuery queryText s.input = q := by
    rcases htext with h | ⟨h | h, hin⟩
    · subst h
      simp [finalQuery, ne_empty_of_jsTrim_ne hq]
    · subst h
      simpa [finalQuery] using hin
    · subst h
      simpa [finalQuery] using hin
  have hacc := handleSendMessage_accepted env now s queryText hidle (by rw [hfq]; exact hq)
  rw [hfq] at hacc
  refine ⟨by rw [hacc]; rfl, ?_, by rw [hacc]; rfl⟩
  intro now2 o
  rcases resume_cases now2 o with ⟨d, hd⟩ | ⟨e, he⟩
  · rw [hd]
    rfl
  · rw [he]
    rfl

theorem accepted_submission_issues_one_chat_request_witness :
    (requestsOf (handleSendMessage none "t0" ⟨[], " jobs in Berlin ", false⟩ none) =
      [ { url := API_BASE_URL none ++ "/api/chat",
          method := "POST",
          headers := [("Content-Type", "application/json")],
          body := [("message", .str " jobs in Berlin "), ("page", .num 1),
                   ("page_size", .num 20)] } ] ∧
    (∀ (now2 : String) (o : FetchOutcome),
      requestsOf (handleSendMessage.resume now2 o).effects = []) ∧
    messagesOf (handleSendMessage none "t0" ⟨[], " jobs in Berlin ", false⟩ none) =
      [ { role := .user, content := some " jobs in Berlin ", timestamp := "t0" } ]) ∧
    (requestsOf (handleSendMessage (some "https://api.example.org") "t0" ⟨[], "typed", false⟩
        (some " events in London")) =
      [ { url := API_BASE_URL (some "https://api.example.org") ++ "/api/chat",
          method := "POST",
          headers := [("Content-Type", "application/json")],
          body := [("message", .str " events in London"), ("page", .num 1),
                   ("page_size", .num 20)] } ] ∧
    (∀ (now2 : String) (o : FetchOutcome),
      requestsOf (handleSendMessage.resume now2 o).effects = []) ∧
    messagesOf (handleSendMessage (some "https://api.example.org") "t0" ⟨[], "typed", false⟩
        (some " events in London")) =
      [ { role := .user, content := some " events in London", timestamp := "t0" } ]) :=
  ⟨accepted_submission_issues_one_chat_request none "t0" ⟨[], " jobs in Berlin ", false⟩
      none " jobs in Berlin " rfl (Or.inr ⟨Or.inl rfl, rfl⟩) (by decide),
   accepted_submission_issues_one_chat_request (some "https://api.example.org") "t0"
      ⟨[], "typed", false⟩ (some " events in London") " events in London" rfl (Or.inl rfl)
      (by decide)⟩

/-- C10, as stated, fails: two calls of `handleSendMessage` made on the same
render both read `loading = false` from its closure, so both are accepted: the
log holds two user messages in a row and two requests are in flight. -/
theorem two_submissions_on_one_render_both_accepted :
    (World.init.run none
        [.submit (some "events in London") "t0",
         .submit (some "jobs in Berlin") "t1"]).state.messages.map Message.role =
      [Role.user, Role.user] ∧
    (World.init.run none
        [.submit (some "events in London") "t0",
         .submit (some "jobs in Berlin") "t1"]).inFlight.length = 2 := by
  decide

/-- C10, amended: in every state reached from the initial one (empty log,
`loading = false`) by any sequence of re-renders, submissions (accepted or
not), input changes and settlements in which every call of `handleSendMessage`
is made on a render that shows the current `loading` flag, the log alternates
user, assistant, user, ... from a user message on; its length is even exactly
when `loading = false` and odd exactly when `loading = true`, in which case its
last message is the user message awaiting its reply; and the number of requests
in flight is 1 while loading and 0 otherwise. -/
theorem reachable_log_alternates (env : Option String) (evs : List Event)
    (hcur : World.loadingCurrent env World.init evs = true) :
    (∀ (i : Nat) (h : i < (World.init.run env evs).state.messages.length),
      ((World.init.run env evs).state.messages.get ⟨i, h⟩).role =
        if i % 2 = 0 then Role.user else Role.assistant) ∧
    ((World.init.run env evs).state.messages.length % 2 = 0 ↔
      (World.init.run env evs).state.loading = false) ∧
    ((World.init.run env evs).state.messages.length % 2 = 1 ↔
      (World.init.run env evs).state.loading = true) ∧
    ((World.init.run env evs).state.loading = true →
      ∃ m : Message, (World.init.run env evs).state.messages.getLast? = some m ∧
        m.role = Role.user) ∧
    (World.init.run env evs).inFlight.length =
      (if (World.init.run env evs).state.loading then 1 else 0) := by
  obtain ⟨hroles, hfl, hpar⟩ := consistent_run env evs World.init consistent_init hcur
  generalize World.init.run env evs = w at hroles hfl hpar
  have hrole : ∀ (i : Nat) (h : i < w.state.messages.length),
      (w.state.messages.get ⟨i, h⟩).role = if i % 2 = 0 then Role.user else Role.assistant := by
    intro i h
    have h1 : (w.state.messages.map Message.role)[i]? =
        ((List.range w.state.messages.length).map roleAt)[i]? := by rw [hroles]
    simp [List.getElem?_map, List.getElem?_range h, List.getElem?_eq_getElem h] at h1
    simpa [roleAt] using h1
  refine ⟨hrole, ?_, ?_, ?_, hfl⟩
  · cases hl : w.state.loading <;> simp [hl] at hpar ⊢ <;> omega
  · cases hl : w.state.loading <;> simp [hl] at hpar ⊢ <;> omega
  · intro hl
    have hodd : w.state.messages.length % 2 = 1 := by simpa [hl] using hpar
    have hpos : w.state.messages.length - 1 < w.state.messages.length := by omega
    refine ⟨w.state.messages.get ⟨w.state.messages.length - 1, hpos⟩, ?_, ?_⟩
    · rw [List.getLast?_eq_getElem?]
      simp [List.getElem?_eq_getElem hpos]
    · rw [hrole _ hpos]
      have : (w.state.messages.length - 1) % 2 = 0 := by omega
      simp [this]

theorem reachable_log_alternates_witness :
    (∀ (i : Nat) (h : i < (World.init.run none
        [.submit (some "events in London") "t0", .render, .submit (some "again") "t1",
         .settle 0 (.rejected ⟨"Failed to fetch"⟩) "t2", .change "jobs in Berlin", .render,
         .submit none "t3"]).state.messages.length),
      ((World.init.run none
        [.submit (some "events in London") "t0", .render, .submit (some "again") "t1",
         .settle 0 (.rejected ⟨"Failed to fetch"⟩) "t2", .change "jobs in Berlin", .render,
         .submit none "t3"]).state.messages.get ⟨i, h⟩).role =
        if i % 2 = 0 then Role.user else Role.assistant) ∧
    ((World.init.run none
        [.submit (some "events in London") "t0", .render, .submit (some "again") "t1",
         .settle 0 (.rejected ⟨"Failed to fetch"⟩) "t2", .change "jobs in Berlin", .render,
         .submit none "t3"]).state.messages.length % 2 = 0 ↔
      (World.init.run none
        [.submit (some "events in London") "t0", .render, .submit (some "again") "t1",
         .settle 0 (.rejected ⟨"Failed to fetch"⟩) "t2", .change "jobs in Berlin", .render,
         .submit none "t3"]).state.loading = false) ∧
    ((World.init.run none
        [.submit (some "events in London") "t0", .render, .submit (some "again") "t1",
         .settle 0 (.rejected ⟨"Failed to fetch"⟩) "t2", .change "jobs in Berlin", .render,
         .submit none "t3"]).state.messages.length % 2 = 1 ↔
      (World.init.run none
        [.submit (some "events in London") "t0", .render, .submit (some "again") "t1",
         .settle 0 (.rejected ⟨"Failed to fetch"⟩) "t2", .change "jobs in Berlin", .render,
         .submit none "t3"]).state.loading = true) ∧
    ((World.init.run none
        [.submit (some "events in London") "t0", .render, .submit (some "again") "t1",
         .settle 0 (.rejected ⟨"Failed to fetch"⟩) "t2", .change "jobs in Berlin", .render,
         .submit none "t3"]).state.loading = true →
      ∃ m : Message, (World.init.run none
        [.submit (some "events in London") "t0", .render, .submit (some "again") "t1",
         .settle 0 (.rejected ⟨"Failed to fetch"⟩) "t2", .change "jobs in Berlin", .render,
         .submit none "t3"]).state.messages.getLast? = some m ∧
        m.role = Role.user) ∧
    (World.init.run none
        [.submit (some "events in London") "t0", .render, .submit (some "again") "t1",
         .settle 0 (.rejected ⟨"Failed to fetch"⟩) "t2", .change "jobs in Berlin", .render,
         .submit none "t3"]).inFlight.length =
      (if (World.init.run none
        [.submit (some "events in London") "t0", .render, .submit (some "again") "t1",
         .settle 0 (.rejected ⟨"Failed to fetch"⟩) "t2", .change "jobs in Berlin", .render,
         .submit none "t3"]).state.loading then 1 else 0) :=
  reachable_log_alternates none
    [.submit (some "events in London") "t0", .render, .submit (some "again") "t1",
     .settle 0 (.rejected ⟨"Failed to fetch"⟩) "t2", .change "jobs in Berlin", .render,
     .submit none "t3"]
    (by decide)

/-! ## Searching element trees -/

theorem Node.any_text (p : String → String → Bool) (s : String) :
    Node.any p (.text s) = false := by
  simp [Node.any]

theorem Node.any_expr (p : String → String → Bool) (v : JsVal) :
    Node.any p (.expr v) = false := by
  simp [Node.any]

theorem Node.any_elem (p : String → String → Bool) (tag cls : String)
    (props : List (String × JsVal)) (cs : List Node) :
    Node.any p (.elem tag cls props cs) = (p tag cls || Node.anyList p cs) := by
  simp [Node.any]

theorem Node.anyList_nil (p : String → String → Bool) : Node.anyList p [] = false := by
  simp [Node.anyList]

theorem Node.anyList_cons (p : String → String → Bool) (n : Node) (ns : List Node) :
    Node.anyList p (n :: ns) = (Node.any p n || Node.anyList p ns) := by
  simp [Node.anyList]

theorem Node.any_ite (p : String → String → Bool) (c : Prop) [Decidable c] (a b : Node) :
    Node.any p (if c then a else b) = if c then Node.any p a else Node.any p b := by
  split <;> rfl

theorem Node.any_jsAnd (p : String → String → Bool) (v : JsVal) (n : Node) :
    Node.any p (jsAnd v n) = (v.truthy && Node.any p n) := by
  unfold jsAnd
  cases h : v.truthy <;> simp [Node.any_expr]

theorem Node.any_icon (p : String → String → Bool) (name : String) (size : ℚ) :
    Node.any p (icon name size) = p name "" := by
  simp [icon, Node.any_elem, Node.anyList_nil]

theorem EventCard_hasClass_summary (pl : Platform) (ie : Bool) (event : Item) :
    (EventCard pl ie event).hasClass "ai-summary-box" = false ∧
    (EventCard pl ie event).hasClass "response-summary" = false := by
  constructor <;>
  simp [EventCard, EventCard.poster, EventCard.details, EventCard.dateDetail,
    EventCard.timeDetail, EventCard.footer, Node.hasClass, Node.any_elem, Node.any_text,
    Node.any_expr, Node.anyList_nil, Node.anyList_cons, Node.any_ite,
    Node.any_jsAnd, Node.any_icon] <;>
  split <;> decide

theorem cards_hasClass_summary (pl : Platform) (ie : Nat → Bool) (items : List Item) :
    ∀ idx : Nat,
      Node.anyList (fun _ cls => cls == "ai-summary-box")
        (AssistantMessage.cards pl ie idx items) = false ∧
      Node.anyList (fun _ cls => cls == "response-summary")
        (AssistantMessage.cards pl ie idx items) = false := by
  induction items with
  | nil =>
    intro idx
    simp [AssistantMessage.cards, Node.anyList_nil]
  | cons event rest ih =>
    intro idx
    have h := EventCard_hasClass_summary pl (ie idx) event
    simp only [Node.hasClass] at h
    simp [AssistantMessage.cards, Node.anyList_cons, Node.any_elem, Node.anyList_nil,
      h.1, h.2, (ih (idx + 1)).1, (ih (idx + 1)).2]

theorem resultsBox_hasClass_summary (pl : Platform) (ie : Nat → Bool)
    (results : Option (List Item)) :
    (AssistantMessage.resultsBox pl ie results).hasClass "ai-summary-box" = false ∧
    (AssistantMessage.resultsBox pl ie results).hasClass "response-summary" = false := by
  unfold AssistantMessage.resultsBox
  split
  · next event rest =>
    have h := cards_hasClass_summary pl ie (event :: rest) 0
    simp [Node.hasClass, Node.any_elem, h.1, h.2]
  · simp [Node.hasClass, Node.any_elem, Node.any_text, Node.anyList_nil, Node.anyList_cons,
      Node.any_icon]

theorem AssistantMessage_data (pl : Platform) (ie : Nat → Bool) (message : Message)
    (data : ResultPayload) (herr : message.error = false) (hdata : message.data = some data) :
    AssistantMessage pl ie message =
      some (.elem "div" "message assistant" []
        [ .elem "div" "message-content assistant-response" []
            [ AssistantMessage.header pl message,
              AssistantMessage.summaryBox data.ai_summary,
              AssistantMessage.countBox data.ai_summary data.total_results,
              AssistantMessage.resultsBox pl ie data.results ] ]) := by
  simp [AssistantMessage, herr, hdata]

theorem AssistantMessage_hasClass (pl : Platform) (ie : Nat → Bool) (message : Message)
    (data : ResultPayload) :
    (Node.elem "div" "message assistant" []
        [ .elem "div" "message-content assistant-response" []
            [ AssistantMessage.header pl message,
              AssistantMessage.summaryBox data.ai_summary,
              AssistantMessage.countBox data.ai_summary data.total_results,
              AssistantMessage.resultsBox pl ie data.results ] ]).hasClass "ai-summary-box" =
      data.ai_summary.truthy ∧
    (Node.elem "div" "message assistant" []
        [ .elem "div" "message-content assistant-response" []
            [ AssistantMessage.header pl message,
              AssistantMessage.summaryBox data.ai_summary,
              AssistantMessage.countBox data.ai_summary data.total_results,
              AssistantMessage.resultsBox pl ie data.results ] ]).hasClass "response-summary" =
      !data.ai_summary.truthy := by
  have h := resultsBox_hasClass_summary pl ie data.results
  simp only [Node.hasClass] at h
  constructor <;>
  simp [Node.hasClass, Node.any_elem, Node.any_text, Node.any_expr, Node.anyList_nil,
    Node.anyList_cons, Node.any_jsAnd, Node.any_icon, AssistantMessage.header,
    AssistantMessage.summaryBox, AssistantMessage.countBox, AssistantMessage.countSentence,
    h.1, h.2, JsVal.truthy]

/-! ## Rendering of assistant messages and cards -/

theorem JsVal.truthy_bool (b : Bool) : (JsVal.bool b).truthy = b := rfl

theorem JsVal.truthy_str (s : String) : (JsVal.str s).truthy = (s != "") := rfl

/-- C7, as stated, fails: a response whose summary is the empty string renders
the count sentence and no summary box. -/
theorem empty_summary_renders_count_sentence :
    (AssistantMessage Platform.invalidDates (fun _ => false)
        { role := .assistant, timestamp := "t1",
          data := some { total_results := .num 3, ai_summary := .str "" } }).map
      (fun t => (t.hasClass "ai-summary-box", t.hasClass "response-summary")) =
    some (false, true) := by
  decide

/-- C7, amended: for every assistant message without error flag and with a
data payload, `AssistantMessage` renders exactly one of the AI-summary box and
the count sentence: the box when `ai_summary` is truthy, the count sentence
otherwise.  Whenever the response carries a non-empty summary string the box is
rendered, its text paragraph shows that string, and the count sentence is not
rendered. -/
theorem AssistantMessage_renders_summary_or_count (pl : Platform) (imageError : Nat → Bool)
    (message : Message) (data : ResultPayload)
    (herr : message.error = false) (hdata : message.data = some data) :
    ∃ t : Node, AssistantMessage pl imageError message = some t ∧
      t.hasClass "ai-summary-box" = data.ai_summary.truthy ∧
      t.hasClass "response-summary" = !data.ai_summary.truthy ∧
      (t.hasClass "ai-summary-box" = !t.hasClass "response-summary") ∧
      ∀ x : String, data.ai_summary = .str x → x ≠ "" →
        t.hasClass "ai-summary-box" = true ∧ t.hasClass "response-summary" = false ∧
        t.descend [0, 1] = some (.elem "div" "ai-summary-box" []
          [ .elem "div" "ai-summary-header" []
              [icon "Sparkles" 16, .elem "span" "" [] [.text "AI Summary"]],
            .elem "p" "ai-summary-text" [] [.expr (.str x)] ]) ∧
        t.descend [0, 2] = some (.expr (.bool false)) := by
  refine ⟨_, AssistantMessage_data pl imageError message data herr hdata, ?_⟩
  obtain ⟨hbox, hcount⟩ := AssistantMessage_hasClass pl imageError message data
  refine ⟨hbox, hcount, ?_, ?_⟩
  · rw [hbox, hcount]
    simp
  · intro x hx hne
    have htr : data.ai_summary.truthy = true := by simp [hx, JsVal.truthy_str, hne]
    refine ⟨by rw [hbox, htr], by rw [hcount, htr]; rfl, ?_, ?_⟩
    · simp [Node.descend, Node.child, AssistantMessage.summaryBox, jsAnd, htr]
      exact hx
    · simp [Node.descend, Node.child, AssistantMessage.countBox, jsAnd, htr, JsVal.truthy_bool]

theorem AssistantMessage_renders_summary_or_count_witness :
    ∃ t : Node, AssistantMessage Platform.invalidDates (fun _ => false)
        { role := .assistant, timestamp := "t1",
          data := some { total_results := .num 3, ai_summary := .str "X" } } = some t ∧
      t.hasClass "ai-summary-box" = (JsVal.str "X").truthy ∧
      t.hasClass "response-summary" = !(JsVal.str "X").truthy ∧
      (t.hasClass "ai-summary-box" = !t.hasClass "response-summary") ∧
      ∀ x : String, JsVal.str "X" = .str x → x ≠ "" →
        t.hasClass "ai-summary-box" = true ∧ t.hasClass "response-summary" = false ∧
        t.descend [0, 1] = some (.elem "div" "ai-summary-box" []
          [ .elem "div" "ai-summary-header" []
              [icon "Sparkles" 16, .elem "span" "" [] [.text "AI Summary"]],
            .elem "p" "ai-summary-text" [] [.expr (.str x)] ]) ∧
        t.descend [0, 2] = some (.expr (.bool false)) :=
  AssistantMessage_renders_summary_or_count Platform.invalidDates (fun _ => false)
    { role := .assistant, timestamp := "t1",
      data := some { total_results := .num 3, ai_summary := .str "X" } }
    { total_results := .num 3, ai_summary := .str "X" } rfl rfl

/-- C8: for a success response without summary whose `total_results` is the
number N, the count sentence is rendered as the paragraph "I found ", N in
bold, " result", the suffix, " for you", where the suffix is "s" exactly when
N is not 1; its text is "I found N result for you" for N = 1 and
"I found N results for you" for every other N, 0 included, with N printed the
way the host prints numbers. -/
theorem count_sentence_pluralises (pl : Platform) (imageError : Nat → Bool)
    (message : Message) (data : ResultPayload) (N : ℚ)
    (herr : message.error = false) (hdata : message.data = some data)
    (hsum : data.ai_summary.truthy = false) (hN : data.total_results = .num N) :
    ∃ t box : Node, AssistantMessage pl imageError message = some t ∧
      t.descend [0, 2] = some box ∧
      box = .elem "div" "response-summary" []
        [ .elem "p" "" []
            [ .text "I found ", .elem "strong" "" [] [.expr (.num N)], .text " result",
              .expr (.str (if N = 1 then "" else "s")), .text " for you" ] ] ∧
      box.textContent pl =
        "I found " ++ pl.numberToString N ++
          (if N = 1 then " result for you" else " results for you") := by
  refine ⟨_, _, AssistantMessage_data pl imageError message data herr hdata, rfl, ?_, ?_⟩
  · by_cases h1 : N = 1 <;>
    simp [AssistantMessage.countBox, AssistantMessage.countSentence, jsAnd, hsum, hN,
      JsVal.truthy_bool, JsVal.strictNe, h1, Node.descend, Node.child]
  · by_cases h1 : N = 1 <;>
    simp [AssistantMessage.countBox, AssistantMessage.countSentence, jsAnd, hsum, hN,
      JsVal.truthy_bool, JsVal.strictNe, h1, Node.textContent, Node.textContentList,
      JsVal.rendered, String.append_assoc, Node.descend, Node.child]

theorem count_sentence_pluralises_witness :
    (∃ t box : Node, AssistantMessage Platform.invalidDates (fun _ => false)
        { role := .assistant, timestamp := "t1",
          data := some { total_results := .num 3, results := some [{}, {}, {}],
                         ai_summary := .null } } = some t ∧
      t.descend [0, 2] = some box ∧
      box = .elem "div" "response-summary" []
        [ .elem "p" "" []
            [ .text "I found ", .elem "strong" "" [] [.expr (.num 3)], .text " result",
              .expr (.str "s"), .text " for you" ] ] ∧
      box.textContent Platform.invalidDates = "I found 3 results for you") ∧
    (∃ t box : Node, AssistantMessage Platform.invalidDates (fun _ => false)
        { role := .assistant, timestamp := "t1",
          data := some { total_results := .num 1, results := some [{}] } } = some t ∧
      t.descend [0, 2] = some box ∧
      box = .elem "div" "response-summary" []
        [ .elem "p" "" []
            [ .text "I found ", .elem "strong" "" [] [.expr (.num 1)], .text " result",
              .expr (.str ""), .text " for you" ] ] ∧
      box.textContent Platform.invalidDates = "I found 1 result for you") := by
  constructor
  · obtain ⟨t, box, h1, h2, h3, h4⟩ :=
      count_sentence_pluralises Platform.invalidDates (fun _ => false)
        { role := .assistant, timestamp := "t1",
          data := some { total_results := .num 3, results := some [{}, {}, {}],
                         ai_summary := .null } }
        { total_results := .num 3, results := some [{}, {}, {}], ai_summary := .null } 3
        rfl rfl rfl rfl
    refine ⟨t, box, h1, h2, ?_, ?_⟩
    · rw [h3]
      norm_num
    · rw [h4]
      have hp : Platform.invalidDates.numberToString 3 = "3" := by decide
      rw [hp]
      norm_num
      decide
  · obtain ⟨t, box, h1, h2, h3, h4⟩ :=
      count_sentence_pluralises Platform.invalidDates (fun _ => false)
        { role := .assistant, timestamp := "t1",
          data := some { total_results := .num 1, results := some [{}] } }
        { total_results := .num 1, results := some [{}] } 1
        rfl rfl rfl rfl
    refine ⟨t, box, h1, h2, ?_, ?_⟩
    · rw [h3]
      simp
    · rw [h4]
      have hp : Platform.invalidDates.numberToString 1 = "1" := by decide
      rw [hp]
      simp

/-- C9: an item without start date (absent, null or empty, or any other falsy
value) gets the date text "Date To Be Announced" in a span of class date-tba and
no time line, whatever its start time.  An item with a start date gets the
formatted date in a span without class, nowhere the class date-tba, a date text
different from the sentinel, and a time line exactly when its start time is
truthy.  The host formatter `toLocaleDateString` is assumed to return, and
never to return the sentinel text. -/
theorem EventCard_date_line (pl : Platform) (imageError : Bool) (event : Item)
    (hpl : ∀ d : JsVal, ∃ r : String, pl.toLocaleDateString d = .ok r ∧ r ≠ dateSentinel) :
    (JsVal.undefined.truthy = false ∧ JsVal.null.truthy = false ∧
      (JsVal.str "").truthy = false) ∧
    (event.start_date.truthy = false →
      (EventCard pl imageError event).descend [1, 2, 0, 1] =
        some (.elem "span" "date-tba" [] [.expr (.str "Date To Be Announced")]) ∧
      (EventCard pl imageError event).hasTag "Clock" = false) ∧
    (event.start_date.truthy = true →
      (∃ r : String, r ≠ "Date To Be Announced" ∧
        pl.toLocaleDateString event.start_date = .ok r ∧
        (EventCard pl imageError event).descend [1, 2, 0, 1] =
          some (.elem "span" "" [] [.expr (.str r)])) ∧
      (EventCard pl imageError event).hasClass "date-tba" = false ∧
      (EventCard pl imageError event).hasTag "Clock" = event.start_time.truthy ∧
      (event.start_time.truthy = true →
        (EventCard pl imageError event).descend [1, 2, 1] =
          some (.elem "div" "event-detail" []
            [icon "Clock" 16, .elem "span" "" [] [.expr event.start_time]]))) := by
  refine ⟨⟨rfl, rfl, rfl⟩, ?_, ?_⟩
  · intro hno
    constructor
    · simp [EventCard, EventCard.details, EventCard.dateDetail, EventCard.isDateUnknown,
        EventCard.displayDate, Node.descend, Node.child, hno, dateSentinel]
    · simp [EventCard, EventCard.poster, EventCard.details, EventCard.dateDetail,
        EventCard.timeDetail, EventCard.footer, EventCard.isDateUnknown, Node.hasTag,
        Node.any_elem, Node.any_text, Node.any_expr, Node.anyList_nil, Node.anyList_cons,
        Node.any_ite, Node.any_jsAnd, Node.any_icon, JsVal.truthy_bool, hno]
  · intro hhas
    obtain ⟨r, hr, hne⟩ := hpl event.start_date
    refine ⟨⟨r, hne, hr, ?_⟩, ?_, ?_, ?_⟩
    · simp [EventCard, EventCard.details, EventCard.dateDetail, EventCard.isDateUnknown,
        EventCard.displayDate, formatDate, Node.descend, Node.child, hhas, hr]
    · simp [EventCard, EventCard.poster, EventCard.details, EventCard.dateDetail,
        EventCard.timeDetail, EventCard.footer, EventCard.isDateUnknown, Node.hasClass,
        Node.any_elem, Node.any_text, Node.any_expr, Node.anyList_nil, Node.anyList_cons,
        Node.any_ite, Node.any_jsAnd, Node.any_icon, JsVal.truthy_bool, hhas]
    · simp [EventCard, EventCard.poster, EventCard.details, EventCard.dateDetail,
        EventCard.timeDetail, EventCard.footer, EventCard.isDateUnknown, Node.hasTag,
        Node.any_elem, Node.any_text, Node.any_expr, Node.anyList_nil, Node.anyList_cons,
        Node.any_ite, Node.any_jsAnd, Node.any_icon, JsVal.truthy_bool, hhas]
    · intro htime
      simp [EventCard, EventCard.details, EventCard.timeDetail, EventCard.isDateUnknown,
        Node.descend, Node.child, jsAnd, JsVal.truthy_bool, hhas, htime]

theorem EventCard_date_line_witness :
    ((EventCard Platform.invalidDates false
        { type := .str "event", start_time := .str "19:00" }).descend [1, 2, 0, 1] =
        some (.elem "span" "date-tba" [] [.expr (.str "Date To Be Announced")]) ∧
      (EventCard Platform.invalidDates false
        { type := .str "event", start_time := .str "19:00" }).hasTag "Clock" = false) ∧
    ((∃ r : String, r ≠ "Date To Be Announced" ∧
        Platform.invalidDates.toLocaleDateString
          ({ start_date := .str "Date To Be Announced", start_time := .str "19:00" } :
            Item).start_date = .ok r ∧
        (EventCard Platform.invalidDates false
          { start_date := .str "Date To Be Announced",
            start_time := .str "19:00" }).descend [1, 2, 0, 1] =
          some (.elem "span" "" [] [.expr (.str r)])) ∧
      (EventCard Platform.invalidDates false
        { start_date := .str "Date To Be Announced",
          start_time := .str "19:00" }).hasClass "date-tba" = false ∧
      (EventCard Platform.invalidDates false
        { start_date := .str "Date To Be Announced",
          start_time := .str "19:00" }).hasTag "Clock" =
        ({ start_date := .str "Date To Be Announced", start_time := .str "19:00" } :
          Item).start_time.truthy ∧
      (({ start_date := .str "Date To Be Announced", start_time := .str "19:00" } :
          Item).start_time.truthy = true →
        (EventCard Platform.invalidDates false
          { start_date := .str "Date To Be Announced",
            start_time := .str "19:00" }).descend [1, 2, 1] =
          some (.elem "div" "event-detail" []
            [icon "Clock" 16,
             .elem "span" "" []
              [.expr ({ start_date := .str "Date To Be Announced",
                        start_time := .str "19:00" } : Item).start_time]]))) :=
  ⟨(EventCard_date_line Platform.invalidDates false
      { type := .str "event", start_time := .str "19:00" }
      (fun _ => ⟨"Invalid Date", rfl, by decide⟩)).2.1 rfl,
   (EventCard_date_line Platform.invalidDates false
      { start_date := .str "Date To Be Announced", start_time := .str "19:00" }
      (fun _ => ⟨"Invalid Date", rfl, by decide⟩)).2.2 rfl⟩

end App
